import Mathlib

/-!
Shallow embedding of the Kaliun Connect API core (src/src/index.js and
src/src/db.js): installation registry, claim binding, credential
bootstrap, token refresh, health submission, and the OAuth device-code
exchange.  Persistent storage is modelled as explicit state (lists of
records); wall-clock time as a `Nat` parameter; JWTs as an inductive
with an explicit signing secret; randomness (claim codes, user codes,
row ids, placeholder secrets) as oracle parameters supplied by the
caller.
-/

namespace Kaliun

/-- Token lifetimes from index.js: access 7 days. -/
def ACCESS_TOKEN_LIFETIME : Nat := 7 * 24 * 60 * 60

/-- Refresh token lifetime: 90 days. -/
def REFRESH_TOKEN_LIFETIME : Nat := 90 * 24 * 60 * 60

/-- Device-authorization code lifetime: 15 minutes. -/
def DEVICE_CODE_LIFETIME : Nat := 900

/-- Payload carried by a signed JWT: `jwt.sign({installation_id, type}, secret, {expiresIn})`.
`sub` doubles as the subject for oauth tokens (user id). -/
structure TokenPayload where
  installation_id : String
  type : String
  exp : Nat
deriving Repr, DecidableEq

/-- A bearer token string is either a well-formed JWT signed with some
secret, or malformed junk. -/
inductive Token where
  | malformed (raw : String)
  | signed (payload : TokenPayload) (secret : String)
deriving Repr, DecidableEq

/-- jwt.verify: returns the payload when the signature matches the
process secret and the token is unexpired, otherwise the catch in
`verifyToken` turns any failure into null (here `none`). -/
def verifyToken (now : Nat) (secret : String) : Token → Option TokenPayload
  | .malformed _ => none
  | .signed p s => if s == secret && now < p.exp then some p else none

/-- generateToken for device access tokens (`{installation_id, type: access}`,
7-day lifetime), as minted by both the config bootstrap and the refresh
endpoint. -/
def mkAccessToken (now : Nat) (secret : String) (installationId : String) : Token :=
  .signed ⟨installationId, "access", now + ACCESS_TOKEN_LIFETIME⟩ secret

/-- generateToken for device refresh tokens (90-day lifetime). -/
def mkRefreshToken (now : Nat) (secret : String) (installationId : String) : Token :=
  .signed ⟨installationId, "refresh", now + REFRESH_TOKEN_LIFETIME⟩ secret

/-- A health payload: `raw` stands for the whole JSON body (identity of
the payload); the two optional fields mirror `body.system?.arch` and
`body.system?.nixos_version` which the handler reads. -/
structure HealthPayload where
  raw : String
  system_arch : Option String
  system_nixos : Option String
deriving Repr, DecidableEq

/-- One row of the `installations` table (schema in the repository's SQL
file), restricted to the columns the embedded endpoints read or write. -/
structure Installation where
  id : String
  install_id : String
  hostname : String
  architecture : Option String
  nixos_version : Option String
  claim_code : String
  claimed_by : Option String
  claimed_at : Option Nat
  customer_name : Option String
  customer_email : Option String
  customer_address : Option String
  access_token : Option Token
  refresh_token : Option Token
  access_expires_at : Option Nat
  refresh_expires_at : Option Nat
  config_confirmed : Bool
  pangolin_newt_id : Option String
  pangolin_newt_secret : Option String
  pangolin_endpoint : Option String
  pangolin_url : Option String
  last_health_at : Option Nat
  last_health : Option HealthPayload
deriving Repr, DecidableEq

/-- One row of `health_reports`: installation row id, raw payload,
insertion timestamp (`created_at DEFAULT NOW()`). -/
structure HealthReport where
  installation_id : String
  data : HealthPayload
  created_at : Nat
deriving Repr, DecidableEq

/-- The authoritative store: the tables the device endpoints touch. -/
structure Store where
  installations : List Installation
  healthReports : List HealthReport
deriving Repr, DecidableEq

/-- db.findInstallationByInstallId. -/
def findInstallationByInstallId (installId : String) (s : Store) : Option Installation :=
  s.installations.find? (fun r => r.install_id == installId)

/-- db.findInstallationByClaimCode. -/
def findInstallationByClaimCode (claimCode : String) (s : Store) : Option Installation :=
  s.installations.find? (fun r => r.claim_code == claimCode)

/-- db.createInstallation: INSERT with defaults (hostname defaults to
kaliunbox; owner, tokens, customer fields NULL; config_confirmed FALSE).
`rowId` stands for the uuid the database generates. -/
def createInstallation (rowId installId : String) (hostname : Option String)
    (architecture nixosVersion : Option String) (claimCode : String) (s : Store) : Store :=
  { s with installations := s.installations ++
      [{ id := rowId
         install_id := installId
         hostname := hostname.getD "kaliunbox"
         architecture := architecture
         nixos_version := nixosVersion
         claim_code := claimCode
         claimed_by := none
         claimed_at := none
         customer_name := none
         customer_email := none
         customer_address := none
         access_token := none
         refresh_token := none
         access_expires_at := none
         refresh_expires_at := none
         config_confirmed := false
         pangolin_newt_id := none
         pangolin_newt_secret := none
         pangolin_endpoint := none
         pangolin_url := none
         last_health_at := none
         last_health := none }] }

/-- db.updateInstallation restricted to one call site's field update `f`:
`UPDATE installations SET ... WHERE install_id = $id RETURNING *`.
Returns the updated row (or none when no row matched — the query does
not throw) together with the new table contents. -/
def updateInstallation (installId : String) (f : Installation → Installation)
    (s : Store) : Option Installation × Store :=
  ((s.installations.find? (fun r => r.install_id == installId)).map f,
   { s with installations :=
       s.installations.map (fun r => if r.install_id == installId then f r else r) })

/-- Response of POST /api/v1/installations/register: 400 when install_id
is missing, 200 with the existing claim code, or 201 with the fresh one. -/
inductive RegisterResp where
  | badRequest
  | okExisting (claim_code : String)
  | createdNew (claim_code : String)
deriving Repr, DecidableEq

/-- The claim code carried by a register response, if any. -/
def RegisterResp.code : RegisterResp → Option String
  | .badRequest => none
  | .okExisting c => some c
  | .createdNew c => some c

/-- POST /api/v1/installations/register: reject a missing install_id,
return the existing record's claim code unchanged, or create a new
record with the freshly generated code (`freshCode`, the oracle for
generateClaimCode; `rowId` for the row uuid). -/
def registerHandler (installId : Option String) (hostname architecture nixosVersion : Option String)
    (freshCode rowId : String) (s : Store) : RegisterResp × Store :=
  match installId with
  | none => (.badRequest, s)
  | some iid =>
    match findInstallationByInstallId iid s with
    | some existing => (.okExisting existing.claim_code, s)
    | none =>
      (.createdNew freshCode,
       createInstallation rowId iid hostname architecture nixosVersion freshCode s)

/-- Alphabet of generateClaimCode (index.js line 38). -/
def claimAlphabet : List Char := "ABCDEFGHJKLMNPQRSTUVWXYZ23456789".toList

/-- Alphabet of generateUserCode (index.js line 45). -/
def userAlphabet : List Char := "ABCDEFGHJKLMNPQRSTUVWXYZ".toList

/-- generateClaimCode: six characters, each indexed into the claim
alphabet by `Math.floor(Math.random() * chars.length)`; `rand i` is the
oracle for the ith draw, reduced mod the alphabet length exactly as the
floor-of-scaled-random always lands inside the alphabet. -/
def generateClaimCode (rand : Nat → Nat) : List Char :=
  (List.range 6).map (fun i => claimAlphabet.getD (rand i % claimAlphabet.length) 'A')

/-- generateUserCode: four characters, a dash, four characters, drawn
from the 24-letter alphabet. -/
def generateUserCode (rand : Nat → Nat) : List Char :=
  (List.range 4).map (fun i => userAlphabet.getD (rand i % userAlphabet.length) 'A')
    ++ ['-']
    ++ (List.range 4).map (fun i => userAlphabet.getD (rand (4 + i) % userAlphabet.length) 'A')

/-- An Authorization header value: either `Bearer <token>` or some other
scheme (e.g. `Basic ...`), which `startsWith('Bearer ')` rejects but
which still counts as a present header. -/
inductive AuthHeader where
  | bearer (t : Token)
  | nonBearer (raw : String)
deriving Repr, DecidableEq

/-- JSON error body of the bearer middleware: status, `error` string,
optional `code` string, `message`. -/
structure ErrBody where
  status : Nat
  error : String
  code : Option String
  message : String
deriving Repr, DecidableEq

/-- requireBearerAuth (index.js lines 201-215): 401 without a Bearer
header; 401 with code TOKEN_EXPIRED when verifyToken fails; otherwise
passes the payload through. -/
def requireBearerAuth (now : Nat) (secret : String) (header : Option AuthHeader) :
    Except ErrBody TokenPayload :=
  match header with
  | some (.bearer t) =>
    match verifyToken now secret t with
    | some p => .ok p
    | none => .error ⟨401, "unauthorized", some "TOKEN_EXPIRED", "Invalid token"⟩
  | _ => .error ⟨401, "unauthorized", none, "Bearer token required"⟩

/-- Customer block of the config response. -/
structure CustomerInfo where
  name : String
  email : String
  address : String
deriving Repr, DecidableEq

/-- Pangolin block of the config response. -/
structure PangolinInfo where
  newt_id : String
  newt_secret : String
  endpoint : String
  url : Option String
deriving Repr, DecidableEq

/-- Auth block returned by the bootstrap branch of the config fetch. -/
structure AuthBlock where
  access_token : Token
  refresh_token : Token
  access_expires_at : Nat
  refresh_expires_at : Nat
deriving Repr, DecidableEq

/-- Response of GET /api/v1/installations/:id/config. -/
inductive ConfigResp where
  | notFound
  | notClaimed
  | unauthorized (code : Option String)
  | syncOk (customer : CustomerInfo) (pangolin : PangolinInfo)
  | bootstrapOk (auth : AuthBlock) (customer : CustomerInfo) (pangolin : PangolinInfo)
deriving Repr, DecidableEq

/-- Customer block built from an installation row (empty-string
defaults, as in the handler). -/
def customerOf (inst : Installation) : CustomerInfo :=
  ⟨inst.customer_name.getD "", inst.customer_email.getD "", inst.customer_address.getD ""⟩

/-- Pangolin block for the resync branch: stored values when configured,
otherwise the deterministic placeholder built from the install id. -/
def pangolinSyncOf (id : String) (inst : Installation) : PangolinInfo :=
  match inst.pangolin_newt_id with
  | some nid =>
    ⟨nid, inst.pangolin_newt_secret.getD "", inst.pangolin_endpoint.getD "", inst.pangolin_url⟩
  | none =>
    ⟨"newt_" ++ id.take 8, "placeholder_" ++ id.take 16, "https://app.pangolin.net", none⟩

/-- Pangolin block for the bootstrap branch: the placeholder secret uses
randomUUID, supplied as the `freshUuid` oracle. -/
def pangolinBootstrapOf (id freshUuid : String) (inst : Installation) : PangolinInfo :=
  match inst.pangolin_newt_id with
  | some nid =>
    ⟨nid, inst.pangolin_newt_secret.getD "", inst.pangolin_endpoint.getD "", inst.pangolin_url⟩
  | none =>
    ⟨"newt_" ++ id.take 8, "placeholder_" ++ freshUuid.take 16, "https://app.pangolin.net", none⟩

/-- GET /api/v1/installations/:id/config (index.js lines 254-348):
404 when the record is missing or unclaimed; 401 when confirmed and no
Authorization header at all is present; token-verified resync when a
Bearer header is presented; otherwise the bootstrap branch mints and
persists a fresh access+refresh pair and returns them. -/
def configGetHandler (now : Nat) (secret : String) (id : String)
    (header : Option AuthHeader) (freshUuid : String) (s : Store) : ConfigResp × Store :=
  match findInstallationByInstallId id s with
  | none => (.notFound, s)
  | some inst =>
    if inst.claimed_at.isNone then
      (.notClaimed, s)
    else if inst.config_confirmed && header.isNone then
      (.unauthorized none, s)
    else
      match header with
      | some (.bearer t) =>
        match verifyToken now secret t with
        | some p =>
          if p.installation_id == id then
            (.syncOk (customerOf inst) (pangolinSyncOf id inst), s)
          else
            (.unauthorized (some "TOKEN_EXPIRED"), s)
        | none => (.unauthorized (some "TOKEN_EXPIRED"), s)
      | _ =>
        let accessToken := mkAccessToken now secret id
        let refreshToken := mkRefreshToken now secret id
        let s1 := (updateInstallation id (fun r =>
          { r with
            access_token := some accessToken
            refresh_token := some refreshToken
            access_expires_at := some (now + ACCESS_TOKEN_LIFETIME)
            refresh_expires_at := some (now + REFRESH_TOKEN_LIFETIME) }) s).2
        (.bootstrapOk
          ⟨accessToken, refreshToken, now + ACCESS_TOKEN_LIFETIME, now + REFRESH_TOKEN_LIFETIME⟩
          (customerOf inst) (pangolinBootstrapOf id freshUuid inst), s1)

/-- DELETE /api/v1/installations/:id/config (index.js lines 351-362):
no authentication, sets config_confirmed on whatever row matches (a
missing row updates nothing and does not throw), always 204. -/
def confirmHandler (id : String) (s : Store) : Nat × Store :=
  (204, (updateInstallation id (fun r => { r with config_confirmed := true }) s).2)

/-- Response of POST /api/v1/installations/token/refresh. -/
inductive RefreshResp where
  | badRequest
  | invalidGrant
  | ok (access_token : Token) (access_expires_at : Nat)
deriving Repr, DecidableEq

/-- The field update the token-refresh endpoint sends to
db.updateInstallation: a fresh access token and its expiry, nothing
else. -/
def withFreshAccess (now : Nat) (secret installationId : String)
    (r : Installation) : Installation :=
  { r with
    access_token := some (mkAccessToken now secret installationId)
    access_expires_at := some (now + ACCESS_TOKEN_LIFETIME) }

/-- POST /api/v1/installations/token/refresh (index.js lines 365-392):
400 without a body token; 401 invalid_grant when verifyToken fails or
the payload type is not refresh; otherwise mint a 7-day access token,
persist it on the record, and return it.  The stored refresh token is
never consulted. -/
def refreshHandler (now : Nat) (secret : String) (body : Option Token) (s : Store) :
    RefreshResp × Store :=
  match body with
  | none => (.badRequest, s)
  | some t =>
    match verifyToken now secret t with
    | none => (.invalidGrant, s)
    | some p =>
      if p.type != "refresh" then
        (.invalidGrant, s)
      else
        let s1 := (updateInstallation p.installation_id
          (withFreshAccess now secret p.installation_id) s).2
        (.ok (mkAccessToken now secret p.installation_id) (now + ACCESS_TOKEN_LIFETIME), s1)

/-- Response of POST /api/v1/installations/:id/health. -/
inductive HealthResp where
  | unauthorized (e : ErrBody)
  | forbidden
  | notFound
  | noContent
deriving Repr, DecidableEq

/-- The JS `.replace('-linux', '')` applied to the reported arch. -/
def stripLinux (a : String) : String := a.replace "-linux" ""

/-- The field update the health endpoint sends to db.updateInstallation:
last_health_at, last_health, and — only when the payload carries them —
architecture (with the `-linux` suffix stripped) and nixos_version. -/
def withHealth (now : Nat) (payload : HealthPayload) (r : Installation) : Installation :=
  { r with
    last_health_at := some now
    last_health := some payload
    architecture := match payload.system_arch with
      | some a => some (stripLinux a)
      | none => r.architecture
    nixos_version := match payload.system_nixos with
      | some v => some v
      | none => r.nixos_version }

/-- POST /api/v1/installations/:id/health (index.js lines 395-437):
requireBearerAuth, 403 when the token payload's installation id differs
from the path, 404 when the record is missing; otherwise insert a
health report row, then update last_health_at/last_health (and
architecture/nixos_version when present in the payload). -/
def healthHandler (now : Nat) (secret : String) (id : String)
    (header : Option AuthHeader) (payload : HealthPayload) (s : Store) :
    HealthResp × Store :=
  match requireBearerAuth now secret header with
  | .error e => (.unauthorized e, s)
  | .ok p =>
    if p.installation_id != id then
      (.forbidden, s)
    else
      match findInstallationByInstallId id s with
      | none => (.notFound, s)
      | some inst =>
        let s1 := { s with healthReports := s.healthReports ++ [⟨inst.id, payload, now⟩] }
        (.noContent, (updateInstallation id (withHealth now payload) s1).2)

/-- db.claimInstallation (db.js lines 169-178): the single conditional
statement `UPDATE installations SET claimed_by, claimed_at = NOW(),
customer fields WHERE claim_code = $1 AND claimed_at IS NULL
RETURNING *`.  Returns the updated row only when the condition matched,
together with the new table contents. -/
def claimInstallation (now : Nat) (claimCode userId customerName customerEmail : String)
    (customerAddress : Option String) (s : Store) : Option Installation × Store :=
  let cond := fun (r : Installation) => r.claim_code == claimCode && r.claimed_at.isNone
  let upd := fun (r : Installation) =>
    { r with
      claimed_by := some userId
      claimed_at := some now
      customer_name := some customerName
      customer_email := some customerEmail
      customer_address := some (customerAddress.getD "") }
  ((s.installations.find? cond).map upd,
   { s with installations := s.installations.map (fun r => if cond r then upd r else r) })

/-- Response of POST /claim/:code (redirect targets). -/
inductive ClaimResp where
  | invalidCode
  | alreadyClaimed
  | success
deriving Repr, DecidableEq

/-- Read phase of POST /claim/:code (index.js lines 1287-1298): the
handler first SELECTs by claim code and rejects a missing or
already-claimed record; `none` means the request proceeds to the
conditional update. -/
def claimCheck (code : String) (s : Store) : Option ClaimResp :=
  match findInstallationByClaimCode code s with
  | none => some .invalidCode
  | some inst => if inst.claimed_at.isSome then some .alreadyClaimed else none

/-- Write phase of POST /claim/:code (index.js lines 1300-1303): runs
db.claimInstallation and redirects to the success page without
inspecting the returned row. -/
def claimWritePhase (now : Nat) (code userId customerName customerEmail : String)
    (customerAddress : Option String) (s : Store) : ClaimResp × Store :=
  let r := claimInstallation now code userId customerName customerEmail customerAddress s
  (.success, r.2)

/-- POST /claim/:code (index.js lines 1275-1308): read phase then write
phase, as two separate round trips to the store. -/
def claimHandler (now : Nat) (code userId customerName customerEmail : String)
    (customerAddress : Option String) (s : Store) : ClaimResp × Store :=
  match claimCheck code s with
  | some resp => (resp, s)
  | none => claimWritePhase now code userId customerName customerEmail customerAddress s

/-- One row of the `device_codes` table (repository SQL schema). -/
structure DeviceCodeRecord where
  device_code : String
  user_code : String
  client_id : String
  scope : String
  user_id : Option String
  authorized : Bool
  expires_at : Nat
deriving Repr, DecidableEq

/-- Result of the device-code token exchange. -/
inductive ExchangeResult where
  | invalidGrant
  | expiredToken
  | authorizationPending
  | tokens (access : Token) (refresh : Token)
deriving Repr, DecidableEq

/-- Modelled from the spec: the OAuth device-flow token exchange
(`exchangeToken`, the poll-exchange arm of POST /oauth/token) is not
implemented under src — only the `device_codes` schema and the route
documentation are present — so this follows the spec: missing record
yields invalid_grant; an expired record yields expired_token and is
purged; an unexpired unauthorized record yields authorization_pending;
an authorized record mints oauth access+refresh tokens for the bound
user and the authorization record is deleted (single exchange). -/
def exchangeToken (now : Nat) (secret : String) (deviceCode : String)
    (s : List DeviceCodeRecord) : ExchangeResult × List DeviceCodeRecord :=
  match s.find? (fun r => r.device_code == deviceCode) with
  | none => (.invalidGrant, s)
  | some r =>
    if r.expires_at ≤ now then
      (.expiredToken, s.filter (fun x => !(x.device_code == deviceCode)))
    else if !r.authorized then
      (.authorizationPending, s)
    else
      let uid := r.user_id.getD ""
      (.tokens (.signed ⟨uid, "oauth-access", now + 3600⟩ secret)
               (.signed ⟨uid, "oauth-refresh", now + 30 * 24 * 60 * 60⟩ secret),
       s.filter (fun x => !(x.device_code == deviceCode)))

/-- A freshly registered, unclaimed installation used as a concrete
fixture by witnesses and counterexamples. -/
def baseInst : Installation :=
  { id := "row-1"
    install_id := "dev-1"
    hostname := "kaliunbox"
    architecture := none
    nixos_version := none
    claim_code := "ABC123"
    claimed_by := none
    claimed_at := none
    customer_name := none
    customer_email := none
    customer_address := none
    access_token := none
    refresh_token := none
    access_expires_at := none
    refresh_expires_at := none
    config_confirmed := false
    pangolin_newt_id := none
    pangolin_newt_secret := none
    pangolin_endpoint := none
    pangolin_url := none
    last_health_at := none
    last_health := none }

/-- A claimed installation that currently stores one particular refresh
token, used as a concrete fixture. -/
def instWithStoredRefresh : Installation :=
  { baseInst with
    claimed_at := some 1
    refresh_token := some (.signed ⟨"dev-1", "refresh", 500⟩ "s")
    refresh_expires_at := some 500 }

/-- A claimed but unconfirmed installation. -/
def claimedInst : Installation := { baseInst with claimed_at := some 1 }

/-- A claimed installation whose confirmed flag is already set. -/
def confirmedInst : Installation :=
  { baseInst with
    claimed_at := some 1
    config_confirmed := true }

/-- The row produced by U1 winning the claim of ABC123 at time 100. -/
def claimedByU1 : Installation :=
  { baseInst with
    claimed_by := some "U1"
    claimed_at := some 100
    customer_name := some "Alice"
    customer_email := some "a@x"
    customer_address := some "" }

/-- A concrete health payload. -/
def samplePayload : HealthPayload := ⟨"payload-1", none, none⟩

/-- An authorized, unexpired device-authorization record. -/
def sampleDeviceCode : DeviceCodeRecord :=
  ⟨"DC1", "WXYZ-ABCD", "ha-client", "profile", some "U1", true, 100⟩

/-! ### Helper lemmas about the store operations -/

theorem find?_install_update (id : String) (f : Installation → Installation)
    (hf : ∀ x, (f x).install_id = x.install_id) (l : List Installation) :
    (l.map (fun r => if r.install_id == id then f r else r)).find?
        (fun r => r.install_id == id)
      = (l.find? (fun r => r.install_id == id)).map f := by
  induction l with
  | nil => rfl
  | cons a t ih =>
    simp only [List.map_cons, List.find?_cons]
    cases hb : (a.install_id == id) with
    | true =>
      have hfa : ((f a).install_id == id) = true := by
        rw [show (f a).install_id = a.install_id from hf a]; exact hb
      simp [hfa]
    | false =>
      rw [if_neg Bool.false_ne_true, hb]
      exact ih

theorem mem_install_update (id : String) (f : Installation → Installation)
    (l : List Installation) (x : Installation) (hx : x ∈ l) (hne : x.install_id ≠ id) :
    x ∈ l.map (fun r => if r.install_id == id then f r else r) := by
  have hb : (x.install_id == id) = false := by simp [hne]
  exact List.mem_map.mpr ⟨x, hx, by simp [hb]⟩

theorem find?_claim_none (now : Nat) (code u n e : String) (a : Option String) (s : Store) :
    ((claimInstallation now code u n e a s).2).installations.find?
      (fun r => r.claim_code == code && r.claimed_at.isNone) = none := by
  rw [List.find?_eq_none]
  intro x hx
  rcases List.mem_map.mp hx with ⟨y, _, rfl⟩
  by_cases hc : (y.claim_code == code && y.claimed_at.isNone) = true
  · simp [claimInstallation, hc]
  · simp only [claimInstallation]
    rw [if_neg (by simpa using hc)]
    simpa using hc

theorem getD_mem_of_lt {α : Type} (l : List α) (n : Nat) (d : α) (h : n < l.length) :
    l.getD n d ∈ l := by
  induction l generalizing n with
  | nil => simp at h
  | cons a t ih =>
    cases n with
    | zero => simp
    | succ m =>
      rw [List.getD_cons_succ]
      exact List.mem_cons_of_mem _ (ih m (by simpa using h))

/-! ### C2: register is idempotent -/

/-- C2: register is idempotent: when a record for the installId already
exists, register returns that record's claim code and leaves the store
unchanged; and two consecutive register calls for the same installId
(with independently drawn fresh codes) return the same claim code. -/
theorem c2_register_idempotent
    (iid : String) (h1 a1 n1 h2 a2 n2 : Option String) (c1 r1 c2 r2 : String) (s : Store) :
    (∀ ex, findInstallationByInstallId iid s = some ex →
      registerHandler (some iid) h1 a1 n1 c1 r1 s = (.okExisting ex.claim_code, s)) ∧
    ((registerHandler (some iid) h2 a2 n2 c2 r2
        ((registerHandler (some iid) h1 a1 n1 c1 r1 s).2)).1).code
      = ((registerHandler (some iid) h1 a1 n1 c1 r1 s).1).code := by
  constructor
  · intro ex hex
    simp [registerHandler, hex]
  · cases hfind : findInstallationByInstallId iid s with
    | some ex => simp [registerHandler, hfind]
    | none =>
      have hfind2 : ∃ rec, findInstallationByInstallId iid (createInstallation r1 iid h1 a1 n1 c1 s)
          = some rec ∧ rec.claim_code = c1 := by
        unfold findInstallationByInstallId createInstallation
        rw [List.find?_append, show s.installations.find? (fun r => r.install_id == iid) = none
          from hfind]
        simp
      rcases hfind2 with ⟨rec, hrec, hcode⟩
      simp [registerHandler, hfind, hrec, RegisterResp.code, hcode]

/-- C2 witness: two registrations of dev-1 against the empty store (with
different fresh codes) report the same claim code. -/
theorem c2_register_idempotent_witness :
    ((registerHandler (some "dev-1") none none none "ZZZZ99" "row-9"
        ((registerHandler (some "dev-1") none none none "ABC123" "row-1" ⟨[], []⟩).2)).1).code
      = ((registerHandler (some "dev-1") none none none "ABC123" "row-1" (⟨[], []⟩ : Store)).1).code :=
  (c2_register_idempotent "dev-1" none none none none none none
    "ABC123" "row-1" "ZZZZ99" "row-9" ⟨[], []⟩).2

/-! ### C9: code generator formats -/

/-- C9: every claim code is 6 characters from the 32-character claim
alphabet; every user code is two 4-character groups separated by a dash,
drawn from the 24-letter user alphabet; the user alphabet is contained
in the claim alphabet; and both alphabets exclude the ambiguous
characters 0, O, 1 and I. -/
theorem c9_code_formats (rand : Nat → Nat) :
    (generateClaimCode rand).length = 6 ∧
    (∀ c ∈ generateClaimCode rand, c ∈ claimAlphabet) ∧
    (∃ g1 g2, generateUserCode rand = g1 ++ '-' :: g2 ∧ g1.length = 4 ∧ g2.length = 4 ∧
      (∀ c ∈ g1, c ∈ userAlphabet) ∧ (∀ c ∈ g2, c ∈ userAlphabet)) ∧
    (∀ c ∈ userAlphabet, c ∈ claimAlphabet) ∧
    ('0' ∉ claimAlphabet ∧ 'O' ∉ claimAlphabet ∧ '1' ∉ claimAlphabet ∧ 'I' ∉ claimAlphabet) ∧
    ('0' ∉ userAlphabet ∧ 'O' ∉ userAlphabet ∧ '1' ∉ userAlphabet ∧ 'I' ∉ userAlphabet) := by
  have hlen : claimAlphabet.length = 32 := by decide
  have hulen : userAlphabet.length = 24 := by decide
  refine ⟨by simp [generateClaimCode], ?_, ?_, by decide, by decide, by decide⟩
  · intro c hc
    simp only [generateClaimCode, List.mem_map] at hc
    rcases hc with ⟨i, _, rfl⟩
    exact getD_mem_of_lt _ _ _ (Nat.mod_lt _ (by rw [hlen]; decide))
  · refine ⟨(List.range 4).map (fun i => userAlphabet.getD (rand i % userAlphabet.length) 'A'),
      (List.range 4).map (fun i => userAlphabet.getD (rand (4 + i) % userAlphabet.length) 'A'),
      ?_, by simp, by simp, ?_, ?_⟩
    · simp [generateUserCode]
    · intro c hc
      simp only [List.mem_map] at hc
      rcases hc with ⟨i, _, rfl⟩
      exact getD_mem_of_lt _ _ _ (Nat.mod_lt _ (by rw [hulen]; decide))
    · intro c hc
      simp only [List.mem_map] at hc
      rcases hc with ⟨i, _, rfl⟩
      exact getD_mem_of_lt _ _ _ (Nat.mod_lt _ (by rw [hulen]; decide))

/-- C9 witness: with the constant draw oracle, the claim code has six
characters. -/
theorem c9_code_formats_witness : (generateClaimCode (fun _ => 0)).length = 6 :=
  (c9_code_formats (fun _ => 0)).1

/-! ### C5: verification failures are typed but undifferentiated -/

/-- C5 (amended): a bearer token that fails verification always produces
the same typed 401 outcome — error `unauthorized` with code
`TOKEN_EXPIRED` — whether the token is expired, malformed, or badly
signed; the middleware never distinguishes the cases. -/
theorem c5_verify_failure_single_code (now : Nat) (secret : String) (t : Token)
    (h : verifyToken now secret t = none) :
    requireBearerAuth now secret (some (.bearer t))
      = .error ⟨401, "unauthorized", some "TOKEN_EXPIRED", "Invalid token"⟩ := by
  simp [requireBearerAuth, h]

/-- C5 witness: a malformed token is rejected with the single error code. -/
theorem c5_verify_failure_single_code_witness :
    requireBearerAuth 10 "s" (some (.bearer (.malformed "x")))
      = .error ⟨401, "unauthorized", some "TOKEN_EXPIRED", "Invalid token"⟩ :=
  c5_verify_failure_single_code 10 "s" (.malformed "x") rfl

/-- C5 counterexample: no expired token and malformed token make the
middleware emit two different error codes — both failure outcomes carry
the identical error body. -/
theorem c5_counterexample :
    ¬ ∃ (now : Nat) (secret : String) (p : TokenPayload) (raw : String) (e1 e2 : ErrBody),
        p.exp ≤ now ∧
        requireBearerAuth now secret (some (.bearer (.signed p secret))) = .error e1 ∧
        requireBearerAuth now secret (some (.bearer (.malformed raw))) = .error e2 ∧
        e1.code ≠ e2.code := by
  rintro ⟨now, secret, p, raw, e1, e2, hexp, h1, h2, hne⟩
  have hv : verifyToken now secret (.signed p secret) = none := by
    simp [verifyToken, Nat.not_lt.mpr hexp]
  simp only [requireBearerAuth, hv] at h1
  simp only [requireBearerAuth, verifyToken] at h2
  cases h1
  cases h2
  exact hne rfl

/-! ### C4: refresh never consults the stored refresh token -/

/-- C4 (amended): a refresh token's validity is solely a function of its
signature, expiry and type claim: any token that verifies with type
`refresh` yields a new access token, and the handler's response is
independent of the store — in particular of the refresh-token value
stored on the owning record — so overwriting the stored value does not
revoke previously issued refresh tokens. -/
theorem c4_refresh_ignores_stored_token (now : Nat) (secret : String) (t : Token)
    (p : TokenPayload) (s s2 : Store)
    (hv : verifyToken now secret t = some p) (ht : p.type = "refresh") :
    (refreshHandler now secret (some t) s).1
      = .ok (mkAccessToken now secret p.installation_id) (now + ACCESS_TOKEN_LIFETIME)
    ∧ (refreshHandler now secret (some t) s).1 = (refreshHandler now secret (some t) s2).1 := by
  have hbne : (p.type != "refresh") = false := by simp [ht]
  constructor
  · simp [refreshHandler, hv, hbne]
  · simp [refreshHandler, hv, hbne]

/-- C4 witness: a valid refresh-type token succeeds against the empty
store and against a store whose record holds a different refresh token. -/
theorem c4_refresh_ignores_stored_token_witness :
    (refreshHandler 0 "s" (some (.signed ⟨"dev-1", "refresh", 999⟩ "s")) ⟨[], []⟩).1
      = .ok (mkAccessToken 0 "s" "dev-1") (0 + ACCESS_TOKEN_LIFETIME)
    ∧ (refreshHandler 0 "s" (some (.signed ⟨"dev-1", "refresh", 999⟩ "s")) ⟨[], []⟩).1
      = (refreshHandler 0 "s" (some (.signed ⟨"dev-1", "refresh", 999⟩ "s"))
          ⟨[instWithStoredRefresh], []⟩).1 :=
  c4_refresh_ignores_stored_token 0 "s" (.signed ⟨"dev-1", "refresh", 999⟩ "s")
    ⟨"dev-1", "refresh", 999⟩ ⟨[], []⟩ ⟨[instWithStoredRefresh], []⟩ (by decide) rfl

/-- C4 counterexample: the record for dev-1 stores one refresh token,
a different (validly signed, unexpired, refresh-type) token is
presented, and the refresh succeeds anyway: the presented token is
never compared with the stored value. -/
theorem c4_counterexample :
    (refreshHandler 0 "s" (some (.signed ⟨"dev-1", "refresh", 999⟩ "s"))
        ⟨[instWithStoredRefresh], []⟩).1
      = .ok (mkAccessToken 0 "s" "dev-1") (0 + ACCESS_TOKEN_LIFETIME)
    ∧ some (Token.signed ⟨"dev-1", "refresh", 999⟩ "s") ≠ instWithStoredRefresh.refresh_token := by
  constructor
  · decide
  · decide

/-! ### C8: refresh changes only the access token and its expiry -/

/-- C8: on a successful refresh, the owning record receives exactly the
withFreshAccess update — a new access token minted with the same 7-day
lifetime policy as the bootstrap, and its expiry — its stored refresh
token and refresh expiry are unchanged, every other record is
untouched, and the health reports table is untouched. -/
theorem c8_refresh_frame (now : Nat) (secret : String) (t : Token) (p : TokenPayload)
    (s : Store) (r : Installation)
    (hv : verifyToken now secret t = some p) (ht : p.type = "refresh")
    (hr : findInstallationByInstallId p.installation_id s = some r) :
    findInstallationByInstallId p.installation_id (refreshHandler now secret (some t) s).2
      = some (withFreshAccess now secret p.installation_id r)
    ∧ (withFreshAccess now secret p.installation_id r).refresh_token = r.refresh_token
    ∧ (withFreshAccess now secret p.installation_id r).refresh_expires_at = r.refresh_expires_at
    ∧ (withFreshAccess now secret p.installation_id r).access_token
        = some (mkAccessToken now secret p.installation_id)
    ∧ (∀ x ∈ s.installations, x.install_id ≠ p.installation_id →
         x ∈ ((refreshHandler now secret (some t) s).2).installations)
    ∧ ((refreshHandler now secret (some t) s).2).healthReports = s.healthReports := by
  have hbne : (p.type != "refresh") = false := by simp [ht]
  have hsnd : (refreshHandler now secret (some t) s).2
      = (updateInstallation p.installation_id (withFreshAccess now secret p.installation_id) s).2 := by
    simp [refreshHandler, hv, hbne]
  refine ⟨?_, rfl, rfl, rfl, ?_, ?_⟩
  · rw [hsnd]
    have h1 := find?_install_update p.installation_id
      (withFreshAccess now secret p.installation_id) (fun _ => rfl) s.installations
    rw [show s.installations.find? (fun x => x.install_id == p.installation_id) = some r
      from hr] at h1
    exact h1
  · intro x hx hne
    rw [hsnd]
    exact mem_install_update _ _ _ x hx hne
  · rw [hsnd]
    rfl

/-- C8 witness: refreshing dev-1 with a valid refresh token leaves the
stored refresh token and expiry in place and replaces only the access
fields. -/
theorem c8_refresh_frame_witness :
    findInstallationByInstallId "dev-1"
        (refreshHandler 0 "s" (some (.signed ⟨"dev-1", "refresh", 999⟩ "s"))
          ⟨[instWithStoredRefresh], []⟩).2
      = some (withFreshAccess 0 "s" "dev-1" instWithStoredRefresh)
    ∧ (withFreshAccess 0 "s" "dev-1" instWithStoredRefresh).refresh_token
        = instWithStoredRefresh.refresh_token :=
  ⟨(c8_refresh_frame 0 "s" (.signed ⟨"dev-1", "refresh", 999⟩ "s") ⟨"dev-1", "refresh", 999⟩
      ⟨[instWithStoredRefresh], []⟩ instWithStoredRefresh (by decide) rfl (by decide)).1,
   (c8_refresh_frame 0 "s" (.signed ⟨"dev-1", "refresh", 999⟩ "s") ⟨"dev-1", "refresh", 999⟩
      ⟨[instWithStoredRefresh], []⟩ instWithStoredRefresh (by decide) rfl (by decide)).2.1⟩

/-! ### C3: the post-confirmation gate on config fetches -/

/-- C3 (amended): for a claimed installation, a config fetch with no
Authorization header at all returns the one-time bootstrap credentials
while the record is unconfirmed, and fails unauthorized once the
confirmed flag is set; the gate tests header presence, not bearer-token
validity. -/
theorem c3_config_auth_gate (now : Nat) (secret id freshUuid : String) (s : Store)
    (inst : Installation)
    (hfind : findInstallationByInstallId id s = some inst)
    (hclaimed : inst.claimed_at.isSome) :
    (inst.config_confirmed = true →
      (configGetHandler now secret id none freshUuid s).1 = .unauthorized none)
    ∧ (inst.config_confirmed = false →
      (configGetHandler now secret id none freshUuid s).1
        = .bootstrapOk ⟨mkAccessToken now secret id, mkRefreshToken now secret id,
            now + ACCESS_TOKEN_LIFETIME, now + REFRESH_TOKEN_LIFETIME⟩
            (customerOf inst) (pangolinBootstrapOf id freshUuid inst)) := by
  have hnone : inst.claimed_at.isNone = false := by
    cases h : inst.claimed_at <;> simp_all
  constructor
  · intro hc
    simp [configGetHandler, hfind, hnone, hc]
  · intro hc
    simp [configGetHandler, hfind, hnone, hc]

/-- C3 witness: the first anonymous fetch for claimed, unconfirmed dev-1
returns the bootstrap credential block. -/
theorem c3_config_auth_gate_witness :
    (configGetHandler 0 "s" "dev-1" none "u" ⟨[claimedInst], []⟩).1
      = ConfigResp.bootstrapOk ⟨mkAccessToken 0 "s" "dev-1", mkRefreshToken 0 "s" "dev-1",
          0 + ACCESS_TOKEN_LIFETIME, 0 + REFRESH_TOKEN_LIFETIME⟩
          (customerOf claimedInst) (pangolinBootstrapOf "dev-1" "u" claimedInst) :=
  (c3_config_auth_gate 0 "s" "dev-1" "u" ⟨[claimedInst], []⟩ claimedInst rfl rfl).2 rfl

/-- C3 counterexample: dev-1 is confirmed, the request presents a
non-Bearer Authorization header (so no bearer token), and the fetch is
not refused — it reaches the bootstrap path and returns fresh
credentials. -/
theorem c3_counterexample :
    (configGetHandler 0 "s" "dev-1" (some (.nonBearer "Basic xyz")) "u"
        ⟨[confirmedInst], []⟩).1
      = ConfigResp.bootstrapOk ⟨mkAccessToken 0 "s" "dev-1", mkRefreshToken 0 "s" "dev-1",
          0 + ACCESS_TOKEN_LIFETIME, 0 + REFRESH_TOKEN_LIFETIME⟩
          (customerOf confirmedInst) (pangolinBootstrapOf "dev-1" "u" confirmedInst)
    ∧ confirmedInst.config_confirmed = true
    ∧ (configGetHandler 0 "s" "dev-1" (some (.nonBearer "Basic xyz")) "u"
        ⟨[confirmedInst], []⟩).1 ≠ ConfigResp.unauthorized none := by
  refine ⟨by decide, rfl, by decide⟩

/-! ### C1: claim admits one storage-level winner -/

/-- C1 (amended): the conditional update admits at most one winner —
once a claimInstallation call for a code has returned a row, every
later claimInstallation call for the same code matches nothing — and a
claim request whose read phase sees an already-claimed record is
answered with the already-claimed conflict. -/
theorem c1_claim_storage_single_winner (now1 now2 : Nat)
    (code u1 n1 e1 u2 n2 e2 : String) (a1 a2 : Option String) (s s1 : Store) (r : Installation)
    (h : claimInstallation now1 code u1 n1 e1 a1 s = (some r, s1)) :
    (claimInstallation now2 code u2 n2 e2 a2 s1).1 = none
    ∧ (∀ inst, findInstallationByClaimCode code s = some inst → inst.claimed_at.isSome →
        claimHandler now1 code u1 n1 e1 a1 s = (.alreadyClaimed, s)) := by
  constructor
  · have hs1 : s1 = (claimInstallation now1 code u1 n1 e1 a1 s).2 := by rw [h]
    have h2 := find?_claim_none now1 code u1 n1 e1 a1 s
    rw [hs1]
    simp only [claimInstallation] at h2 ⊢
    rw [h2]
    rfl
  · intro inst hinst hclaimed
    simp [claimHandler, claimCheck, hinst, hclaimed]

/-- C1 witness: after U1 claims ABC123, a second conditional update for
the same code matches no row. -/
theorem c1_claim_storage_single_winner_witness :
    (claimInstallation 101 "ABC123" "U2" "Bob" "b@x" none ⟨[claimedByU1], []⟩).1 = none :=
  (c1_claim_storage_single_winner 100 101 "ABC123" "U1" "Alice" "a@x" "U2" "Bob" "b@x"
    none none ⟨[baseInst], []⟩ ⟨[claimedByU1], []⟩ claimedByU1 (by decide)).1

/-- C1 counterexample: the racing interleaving — both requests read the
unclaimed record, U1's conditional update wins, U2's conditional update
matches nothing — yet U2's write phase still answers with the success
redirect, not an already-claimed conflict, and the record belongs to
U1. -/
theorem c1_counterexample :
    claimCheck "ABC123" ⟨[baseInst], []⟩ = none
    ∧ claimInstallation 100 "ABC123" "U1" "Alice" "a@x" none ⟨[baseInst], []⟩
        = (some claimedByU1, ⟨[claimedByU1], []⟩)
    ∧ (claimInstallation 101 "ABC123" "U2" "Bob" "b@x" none ⟨[claimedByU1], []⟩).1 = none
    ∧ (claimWritePhase 101 "ABC123" "U2" "Bob" "b@x" none ⟨[claimedByU1], []⟩).1
        = ClaimResp.success
    ∧ (findInstallationByClaimCode "ABC123"
          (claimWritePhase 101 "ABC123" "U2" "Bob" "b@x" none ⟨[claimedByU1], []⟩).2).map
        (fun i => i.claimed_by) = some (some "U1") := by
  refine ⟨rfl, by decide, by decide, rfl, by decide⟩

/-! ### C6: health submission authentication and effects -/

/-- C6 (amended): submitHealth succeeds exactly when a Bearer token with
a valid signature and unexpired payload whose installation id matches
the path is presented and the record exists — the token class is not
checked — and on success it appends the raw payload as a timestamped
health report and sets the record's last_health_at to the current
time. -/
theorem c6_health_auth_and_effects (now : Nat) (secret id : String)
    (header : Option AuthHeader) (payload : HealthPayload) (s : Store) :
    ((healthHandler now secret id header payload s).1 = .noContent ↔
      ∃ t p inst, header = some (.bearer t) ∧ verifyToken now secret t = some p ∧
        p.installation_id = id ∧ findInstallationByInstallId id s = some inst)
    ∧ (∀ t p inst, header = some (.bearer t) → verifyToken now secret t = some p →
        p.installation_id = id → findInstallationByInstallId id s = some inst →
        (⟨inst.id, payload, now⟩ : HealthReport)
            ∈ ((healthHandler now secret id header payload s).2).healthReports
        ∧ findInstallationByInstallId id (healthHandler now secret id header payload s).2
            = some (withHealth now payload inst)
        ∧ (withHealth now payload inst).last_health_at = some now
        ∧ (withHealth now payload inst).last_health = some payload) := by
  constructor
  · constructor
    · intro hnc
      match header with
      | none => simp [healthHandler, requireBearerAuth] at hnc
      | some (.nonBearer raw) => simp [healthHandler, requireBearerAuth] at hnc
      | some (.bearer t) =>
        cases hv : verifyToken now secret t with
        | none => simp [healthHandler, requireBearerAuth, hv] at hnc
        | some p =>
          by_cases hid : p.installation_id = id
          · cases hf : findInstallationByInstallId id s with
            | none =>
              have hbne : (p.installation_id != id) = false := by simp [hid]
              simp [healthHandler, requireBearerAuth, hv, hbne, hf] at hnc
            | some inst => exact ⟨t, p, inst, rfl, hv, hid, rfl⟩
          · have hbne : (p.installation_id != id) = true := by simp [hid]
            simp [healthHandler, requireBearerAuth, hv, hbne] at hnc
    · rintro ⟨t, p, inst, rfl, hv, hid, hf⟩
      have hbne : (p.installation_id != id) = false := by simp [hid]
      simp [healthHandler, requireBearerAuth, hv, hbne, hf]
  · intro t p inst hh hv hid hf
    subst hh
    have hbne : (p.installation_id != id) = false := by simp [hid]
    have hsnd : (healthHandler now secret id (some (.bearer t)) payload s).2
        = (updateInstallation id (withHealth now payload)
            { s with healthReports := s.healthReports ++ [⟨inst.id, payload, now⟩] }).2 := by
      simp [healthHandler, requireBearerAuth, hv, hbne, hf]
    refine ⟨?_, ?_, rfl, rfl⟩
    · rw [hsnd]
      show (⟨inst.id, payload, now⟩ : HealthReport) ∈ s.healthReports ++ [⟨inst.id, payload, now⟩]
      exact List.mem_append_right _ (List.mem_singleton.mpr rfl)
    · rw [hsnd]
      have h1 := find?_install_update id (withHealth now payload) (fun _ => rfl) s.installations
      rw [show s.installations.find? (fun x => x.install_id == id) = some inst from hf] at h1
      exact h1

/-- C6 witness: a valid access-class token for dev-1 submits health: the
report is appended and the record's last_health_at is set. -/
theorem c6_health_auth_and_effects_witness :
    (⟨baseInst.id, samplePayload, 0⟩ : HealthReport)
        ∈ ((healthHandler 0 "s" "dev-1" (some (.bearer (.signed ⟨"dev-1", "access", 999⟩ "s")))
            samplePayload ⟨[baseInst], []⟩).2).healthReports
    ∧ findInstallationByInstallId "dev-1"
        (healthHandler 0 "s" "dev-1" (some (.bearer (.signed ⟨"dev-1", "access", 999⟩ "s")))
          samplePayload ⟨[baseInst], []⟩).2 = some (withHealth 0 samplePayload baseInst)
    ∧ (withHealth 0 samplePayload baseInst).last_health_at = some 0
    ∧ (withHealth 0 samplePayload baseInst).last_health = some samplePayload :=
  (c6_health_auth_and_effects 0 "s" "dev-1"
    (some (.bearer (.signed ⟨"dev-1", "access", 999⟩ "s"))) samplePayload ⟨[baseInst], []⟩).2
    (.signed ⟨"dev-1", "access", 999⟩ "s") ⟨"dev-1", "access", 999⟩ baseInst
    rfl (by decide) rfl (by decide)

/-- C6 counterexample: a refresh-class token with the matching
installation id is accepted by submitHealth — the token class is never
checked, so the claim's class requirement fails on the code. -/
theorem c6_counterexample :
    (healthHandler 0 "s" "dev-1" (some (.bearer (.signed ⟨"dev-1", "refresh", 999⟩ "s")))
        samplePayload ⟨[baseInst], []⟩).1 = HealthResp.noContent
    ∧ (⟨"dev-1", "refresh", 999⟩ : TokenPayload).type ≠ "access" := by
  refine ⟨by decide, by decide⟩

/-! ### C7: device-code exchange is single-use -/

/-- C7: a successful device-code exchange deletes the authorization
record, so a second exchange with the same device code — at any later
time and under any secret — fails with invalid_grant. -/
theorem c7_exchange_single_use (now1 now2 : Nat) (secret1 secret2 dc : String)
    (s s1 : List DeviceCodeRecord) (a r : Token)
    (h : exchangeToken now1 secret1 dc s = (.tokens a r, s1)) :
    (exchangeToken now2 secret2 dc s1).1 = .invalidGrant := by
  have hs1 : s1 = s.filter (fun x => !(x.device_code == dc)) := by
    unfold exchangeToken at h
    cases hf : s.find? (fun r => r.device_code == dc) with
    | none => rw [hf] at h; simp at h
    | some rec =>
      rw [hf] at h
      by_cases he : rec.expires_at ≤ now1
      · simp [he] at h
      · cases hab : rec.authorized with
        | false => simp [he, hab] at h
        | true =>
          simp only [he, hab, if_false, Bool.not_true, if_neg Bool.false_ne_true,
            Prod.mk.injEq] at h
          exact h.2.symm
  have hnone : (s.filter (fun x => !(x.device_code == dc))).find?
      (fun r => r.device_code == dc) = none := by
    rw [List.find?_eq_none]
    intro x hx
    have hfx := (List.mem_filter.mp hx).2
    simp only [Bool.not_eq_true'] at hfx
    simp [hfx]
  rw [hs1]
  simp [exchangeToken, hnone]

/-- C7 witness: exchanging DC1 once succeeds; exchanging it again
against the resulting store yields invalid_grant. -/
theorem c7_exchange_single_use_witness :
    (exchangeToken 11 "s" "DC1" (exchangeToken 10 "s" "DC1" [sampleDeviceCode]).2).1
      = ExchangeResult.invalidGrant :=
  c7_exchange_single_use 10 11 "s" "s" "DC1" [sampleDeviceCode]
    (exchangeToken 10 "s" "DC1" [sampleDeviceCode]).2
    (.signed ⟨"U1", "oauth-access", 3610⟩ "s") (.signed ⟨"U1", "oauth-refresh", 2592010⟩ "s")
    (by decide)

/-! ### C10: confirm requires no authentication and locks out anonymous fetch -/

/-- C10: the confirm operation takes no credentials, returns 204 for
every installId (including ids with no record), and once it has run
against a claimed record, a config fetch with no Authorization header is
refused as unauthorized. -/
theorem c10_confirm_open_and_locks (id : String) (s : Store)
    (now : Nat) (secret freshUuid : String) :
    (confirmHandler id s).1 = 204
    ∧ (∀ r, findInstallationByInstallId id s = some r → r.claimed_at.isSome →
        (configGetHandler now secret id none freshUuid (confirmHandler id s).2).1
          = .unauthorized none) := by
  refine ⟨rfl, ?_⟩
  intro r hr hclaimed
  have hfind2 : findInstallationByInstallId id (confirmHandler id s).2
      = some { r with config_confirmed := true } := by
    have h1 := find?_install_update id (fun x => { x with config_confirmed := true })
      (fun _ => rfl) s.installations
    rw [show s.installations.find? (fun x => x.install_id == id) = some r from hr] at h1
    exact h1
  have hnone : ({ r with config_confirmed := true } : Installation).claimed_at.isNone = false := by
    cases h : r.claimed_at <;> simp_all
  simp [configGetHandler, hfind2, hnone]

/-- C10 witness: confirming an id with no record still returns 204, and
after confirming claimed dev-1, the anonymous fetch is unauthorized. -/
theorem c10_confirm_open_and_locks_witness :
    (confirmHandler "ghost" (⟨[], []⟩ : Store)).1 = 204
    ∧ (configGetHandler 0 "s" "dev-1" none "u"
        (confirmHandler "dev-1" ⟨[claimedInst], []⟩).2).1 = ConfigResp.unauthorized none :=
  ⟨(c10_confirm_open_and_locks "ghost" ⟨[], []⟩ 0 "s" "u").1,
   (c10_confirm_open_and_locks "dev-1" ⟨[claimedInst], []⟩ 0 "s" "u").2 claimedInst rfl rfl⟩

end Kaliun
